import Mathlib

/-!
Verification of the `swd_ros_controllers` differential-drive controller
(`src/diff_drive_controller/DiffDriveController.cpp`) against its
natural-language specification.

The C++ callbacks are embedded shallowly:
* `double` arithmetic is modelled over `ℝ` (exact real arithmetic);
* `int32_t` values are modelled as `ℤ`, with `static_cast<int32_t>` of a
  `double` modelled as truncation toward zero (`truncTowardZero`);
* fallible motor-channel reads are modelled as `Option`-valued inputs;
* the out-parameter convention of `getSafetyFunctionCommand` (the variable
  keeps its previous value when the call fails) is modelled with
  `Option.getD`.
-/

open Real

namespace DiffDrive

/-- Configuration values read in the constructor (`DiffDriveController.cpp`
lines 34-42 and the per-motor config loads at lines 94-95 and 136-137).
Field order: `baseline_m`, `pub_freq_hz`, `watchdog_receive_ms`, `ref_wheel`,
`left_wheel_diameter_m`, `right_wheel_diameter_m`, `l_motor_reduction`,
`r_motor_reduction`. -/
structure Config where
  baseline_m : ℝ
  pub_freq_hz : ℤ
  watchdog_receive_ms : ℤ
  ref_wheel : ℤ
  left_wheel_diameter_m : ℝ
  right_wheel_diameter_m : ℝ
  l_motor_reduction : ℝ
  r_motor_reduction : ℝ

/-- Mutable odometry state owned by the controller: the pose
(`m_x_prev`, `m_y_prev`, `m_theta_prev`) and the previous encoder samples in
millimetre ticks (`m_dist_left_prev`, `m_dist_right_prev`). -/
structure OdomState where
  x : ℝ
  y : ℝ
  theta : ℝ
  dist_left_prev : ℤ
  dist_right_prev : ℤ

/-- The fields of the published `nav_msgs::Odometry` message that the core
computes (lines 271-284): the twist estimate and the pose.  The orientation
quaternion is built from roll = 0, pitch = 0, yaw = `theta_now`; we record the
yaw directly. -/
structure OdomMsg where
  twist_linear_x : ℝ
  twist_angular_z : ℝ
  pos_x : ℝ
  pos_y : ℝ
  yaw : ℝ

/-- `static_cast<int32_t>` applied to a `double`: truncation toward zero. -/
noncomputable def truncTowardZero (x : ℝ) : ℤ :=
  if 0 ≤ x then ⌊x⌋ else ⌈x⌉

/-- Modelled from the spec: `boundAngle` is declared in the repository's
header (`DiffDriveController.hpp`), which is not among the provided source
files; only its call site at line 265 is.  The spec states that it normalizes
the heading by wrapping into `(-π, π]`.  We realise that wrap as
`θ - 2π·⌈(θ - π)/(2π)⌉`, the unique representative of `θ` modulo `2π` lying
in `(-π, π]`. -/
noncomputable def boundAngle (θ : ℝ) : ℝ :=
  θ - 2 * π * (⌈(θ - π) / (2 * π)⌉ : ℤ)

/-- Per-tick left-wheel displacement in metres
(`d_dist_left`, line 253): `(left_dist_now - m_dist_left_prev) / 1000.0`. -/
noncomputable def dDistLeft (s : OdomState) (left_dist_now : ℤ) : ℝ :=
  ((left_dist_now - s.dist_left_prev : ℤ) : ℝ) / 1000

/-- Per-tick right-wheel displacement in metres (`d_dist_right`, line 254). -/
noncomputable def dDistRight (s : OdomState) (right_dist_now : ℤ) : ℝ :=
  ((right_dist_now - s.dist_right_prev : ℤ) : ℝ) / 1000

/-- Per-tick centre displacement (`d_dist_center`, line 259). -/
noncomputable def dDistCenter (s : OdomState) (left_dist_now right_dist_now : ℤ) : ℝ :=
  (dDistLeft s left_dist_now + dDistRight s right_dist_now) / 2

/-- Per-tick heading change (`d_theta`, line 260):
`m_ref_wheel * (d_dist_right - d_dist_left) / m_baseline_m`. -/
noncomputable def dTheta (cfg : Config) (s : OdomState) (left_dist_now right_dist_now : ℤ) : ℝ :=
  (cfg.ref_wheel : ℝ) * (dDistRight s right_dist_now - dDistLeft s left_dist_now) / cfg.baseline_m

/-- One successful odometry tick (`cbTimerOdom`, lines 232-308), given the
two freshly read encoder positions (the early-return paths on read failure
publish nothing and change no state, so a step is modelled only for the case
where both reads succeeded).  Returns the updated state (lines 263-265 and
303-307) together with the published message (lines 271-284). -/
noncomputable def cbTimerOdom (cfg : Config) (s : OdomState)
    (left_dist_now right_dist_now : ℤ) : OdomState × OdomMsg :=
  let d_dist_center := dDistCenter s left_dist_now right_dist_now
  let d_theta := dTheta cfg s left_dist_now right_dist_now
  let x_now := s.x + d_dist_center * Real.cos s.theta
  let y_now := s.y + d_dist_center * Real.sin s.theta
  let theta_now := boundAngle (s.theta + d_theta)
  (⟨x_now, y_now, theta_now, left_dist_now, right_dist_now⟩,
   ⟨d_dist_center / (cfg.pub_freq_hz : ℝ), d_theta / (cfg.pub_freq_hz : ℝ),
    x_now, y_now, theta_now⟩)

/-- Iterated odometry ticks over a sequence of encoder readings. -/
noncomputable def odomRun (cfg : Config) : OdomState → List (ℤ × ℤ) → OdomState
  | s, [] => s
  | s, (l, r) :: rest => odomRun cfg (cbTimerOdom cfg s l r).1 rest

/-- The two wheels, as targets of `setTargetVelocity`. -/
inductive Wheel
  | left
  | right
deriving DecidableEq, Repr

/-- `setSpeeds` (lines 355-370): the left target velocity is always sent; if
that call fails the function returns before commanding the right wheel, else
the right target velocity is sent (a failure of the right call only logs).
The result lists the `setTargetVelocity` calls issued, in order. -/
def setSpeeds (left_set_failed : Bool) (left_speed right_speed : ℤ) : List (Wheel × ℤ) :=
  if left_set_failed then [(Wheel.left, left_speed)]
  else [(Wheel.left, left_speed), (Wheel.right, right_speed)]

/-- `cbSetSpeed` (lines 313-326): direct mode; converts the commanded
per-wheel rad/s into integer rpm.  Note that the source multiplies **both**
components by `m_l_motor_reduction` (lines 319-320). -/
noncomputable def cbSetSpeed (cfg : Config) (speed_x speed_y : ℝ) : ℤ × ℤ :=
  (truncTowardZero (speed_x * cfg.l_motor_reduction * 60 / (2 * π)),
   truncTowardZero (speed_y * cfg.l_motor_reduction * 60 / (2 * π)))

/-- The real-valued (pre-truncation) command-to-rpm map of `cbCmdVel`
(lines 339-344 before the `static_cast`). -/
noncomputable def cmdVelReal (cfg : Config) (linear_x angular_z : ℝ) : ℝ × ℝ :=
  ((2 * linear_x - angular_z * cfg.baseline_m) / cfg.left_wheel_diameter_m
     * cfg.l_motor_reduction * 60 / (2 * π),
   (2 * linear_x + angular_z * cfg.baseline_m) / cfg.right_wheel_diameter_m
     * cfg.r_motor_reduction * 60 / (2 * π))

/-- `cbCmdVel` (lines 331-350): Twist mode; diff-drive control model followed
by the rad/s → rpm conversion and the `static_cast<int32_t>` truncation. -/
noncomputable def cbCmdVel (cfg : Config) (linear_x angular_z : ℝ) : ℤ × ℤ :=
  (truncTowardZero ((2 * linear_x - angular_z * cfg.baseline_m) / cfg.left_wheel_diameter_m
     * cfg.l_motor_reduction * 60 / (2 * π)),
   truncTowardZero ((2 * linear_x + angular_z * cfg.baseline_m) / cfg.right_wheel_diameter_m
     * cfg.r_motor_reduction * 60 / (2 * π)))

/-- The fields of the published `SafetyFunctions` message (lines 393, 424,
439). -/
structure SafetyMsg where
  safe_torque_off : Bool
  safe_direction_indication_pos : Bool
  safe_limit_speed : Bool
deriving DecidableEq, Repr

/-- The six `getSafetyFunctionCommand` reads of one safety poll cycle,
`none` meaning the call returned an error. -/
structure SafetyReads where
  sto_l : Option Bool
  sto_r : Option Bool
  sdi_l : Option Bool
  sdi_r : Option Bool
  sls_l : Option Bool
  sls_r : Option Bool

/-- `cbTimerSafety` (lines 372-444).  The locals `res_l`, `res_r` are
declared uninitialized at line 374 and reused as out-parameters for all three
flag reads; a failed read logs and leaves the variable unchanged, which
`Option.getD` models.  `res_l0`/`res_r0` are the (indeterminate) initial
values of the locals.  Returns the published message together with the
STO-inconsistency flag of line 395 (`res_l != res_r`, which only logs). -/
def cbTimerSafety (res_l0 res_r0 : Bool) (rd : SafetyReads) : SafetyMsg × Bool :=
  let res_l1 := rd.sto_l.getD res_l0
  let res_r1 := rd.sto_r.getD res_r0
  let sto := res_l1 || res_r1
  let sto_mismatch := res_l1 != res_r1
  let res_l2 := rd.sdi_l.getD res_l1
  let res_r2 := rd.sdi_r.getD res_r1
  let sdi := res_r2 || res_l2
  let res_l3 := rd.sls_l.getD res_l2
  let res_r3 := rd.sls_r.getD res_r2
  let sls := res_r3 || res_l3
  (⟨sto, sdi, sls⟩, sto_mismatch)

/-- Handling of the `pub_freq_hz` parameter in the constructor (lines 35 and
70-73): the parameter defaults to 50 when absent; when the resulting value is
`≤ 0` the code logs an error claiming a fallback to 50 Hz but assigns
nothing.  The first component is the stored `m_pub_freq_hz`, the second
records whether the error branch (the log) was taken. -/
def initPubFreq (p : Option ℤ) : ℤ × Bool :=
  (p.getD 50, decide (p.getD 50 ≤ 0))

/-- The odometry timer period set up at line 181: `1.0 / m_pub_freq_hz`. -/
noncomputable def odomTimerPeriod (pub_freq_hz : ℤ) : ℝ :=
  1 / (pub_freq_hz : ℝ)

/-- Watchdog rearm performed at the start of both command callbacks
(lines 315-316 and 333-334): `m_timer_watchdog.stop(); m_timer_watchdog.start()`
restarts the period, so the pending deadline becomes `now + timeout`. -/
def watchdogRestart (watchdog_receive_ms now : ℕ) : ℕ :=
  now + watchdog_receive_ms

/-- The watchdog timer fires at `now` exactly when the pending deadline has
been reached. -/
def watchdogExpired (deadline now : ℕ) : Prop :=
  deadline ≤ now

/-- `cbWatchdog` (lines 450-453): on expiry, `setSpeeds(0, 0)`. -/
def cbWatchdog (left_set_failed : Bool) : List (Wheel × ℤ) :=
  setSpeeds left_set_failed 0 0

/- ------------------------------------------------------------------ -/
/- Helper lemmas.                                                      -/
/- ------------------------------------------------------------------ -/

lemma two_pi_pos : (0 : ℝ) < 2 * π := by
  have := Real.pi_pos
  linarith

lemma boundAngle_mem_Ioc (θ : ℝ) : boundAngle θ ∈ Set.Ioc (-π) π := by
  have h2 : (0 : ℝ) < 2 * π := two_pi_pos
  have hle : (θ - π) / (2 * π) ≤ (⌈(θ - π) / (2 * π)⌉ : ℝ) := Int.le_ceil _
  have hlt : (⌈(θ - π) / (2 * π)⌉ : ℝ) < (θ - π) / (2 * π) + 1 := Int.ceil_lt_add_one _
  have h1 : θ - π ≤ (⌈(θ - π) / (2 * π)⌉ : ℝ) * (2 * π) := (div_le_iff₀ h2).mp hle
  have h3 : ((⌈(θ - π) / (2 * π)⌉ : ℝ) - 1) * (2 * π) < θ - π := by
    have : (⌈(θ - π) / (2 * π)⌉ : ℝ) - 1 < (θ - π) / (2 * π) := by linarith
    exact (lt_div_iff₀ h2).mp this
  constructor
  · simp only [boundAngle]
    nlinarith
  · simp only [boundAngle]
    nlinarith

lemma boundAngle_eq_of_mem {θ : ℝ} (h : θ ∈ Set.Ioc (-π) π) : boundAngle θ = θ := by
  have h2 : (0 : ℝ) < 2 * π := two_pi_pos
  obtain ⟨h1, h2'⟩ := h
  have hc : ⌈(θ - π) / (2 * π)⌉ = 0 := by
    rw [Int.ceil_eq_zero_iff]
    constructor
    · rw [lt_div_iff₀ h2]
      linarith
    · rw [div_le_iff₀ h2]
      linarith
  simp [boundAngle, hc]

lemma cbTimerOdom_theta (cfg : Config) (s : OdomState) (l r : ℤ) :
    (cbTimerOdom cfg s l r).1.theta = boundAngle (s.theta + dTheta cfg s l r) := rfl

lemma cbTimerOdom_x (cfg : Config) (s : OdomState) (l r : ℤ) :
    (cbTimerOdom cfg s l r).1.x = s.x + dDistCenter s l r * Real.cos s.theta := rfl

lemma cbTimerOdom_y (cfg : Config) (s : OdomState) (l r : ℤ) :
    (cbTimerOdom cfg s l r).1.y = s.y + dDistCenter s l r * Real.sin s.theta := rfl

lemma cbTimerOdom_twist_linear (cfg : Config) (s : OdomState) (l r : ℤ) :
    (cbTimerOdom cfg s l r).2.twist_linear_x = dDistCenter s l r / (cfg.pub_freq_hz : ℝ) := rfl

lemma cbTimerOdom_twist_angular (cfg : Config) (s : OdomState) (l r : ℤ) :
    (cbTimerOdom cfg s l r).2.twist_angular_z = dTheta cfg s l r / (cfg.pub_freq_hz : ℝ) := rfl

/- ------------------------------------------------------------------ -/
/- Claim theorems.                                                     -/
/- ------------------------------------------------------------------ -/

/-- C1 counterexample: with baseline 1 m, publish frequency 50 Hz, previous
samples 0 and fresh encoder readings of 1000 mm on both wheels, the per-tick
centre displacement is 1 m, but the published linear twist is `1/50`
(the displacement divided by the frequency, line 272), not the claimed
`dCenter · publishFrequency = 1 · 50`. -/
theorem twist_scale_counterexample :
    dDistCenter ⟨0, 0, 0, 0, 0⟩ 1000 1000 = 1 ∧
    (cbTimerOdom ⟨1, 50, 1000, 1, 1, 1, 1, 1⟩ ⟨0, 0, 0, 0, 0⟩ 1000 1000).2.twist_linear_x
      = 1 / 50 ∧
    (1 / 50 : ℝ) ≠ 1 * 50 := by
  have hc : dDistCenter ⟨0, 0, 0, 0, 0⟩ 1000 1000 = 1 := by
    norm_num [dDistCenter, dDistLeft, dDistRight]
  refine ⟨hc, ?_, by norm_num⟩
  rw [cbTimerOdom_twist_linear, hc]
  norm_num

/-- C1 amended: each odometry tick publishes the twist as the per-tick
displacement **divided by** the nominal publish frequency:
`twist.linear.x = dCenter / pubFreq` and `twist.angular.z = dTheta / pubFreq`,
spelled out here from the raw encoder readings (lines 253-260 and 271-273). -/
theorem twist_displacement_over_frequency (cfg : Config) (s : OdomState) (l r : ℤ) :
    (cbTimerOdom cfg s l r).2.twist_linear_x
      = (((l - s.dist_left_prev : ℤ) : ℝ) / 1000 + ((r - s.dist_right_prev : ℤ) : ℝ) / 1000) / 2
        / (cfg.pub_freq_hz : ℝ) ∧
    (cbTimerOdom cfg s l r).2.twist_angular_z
      = (cfg.ref_wheel : ℝ) * (((r - s.dist_right_prev : ℤ) : ℝ) / 1000
          - ((l - s.dist_left_prev : ℤ) : ℝ) / 1000) / cfg.baseline_m
        / (cfg.pub_freq_hz : ℝ) :=
  ⟨rfl, rfl⟩

/-- C2 (code bug): in direct mode the source computes the right wheel's rpm
from the **left** motor's reduction (line 320).  With left reduction 2, right
reduction 3 and a right-wheel command of `π/30` rad/s, the code sends 2 rpm
to the right motor, whereas the conversion with the right motor's own
reduction gives 3 rpm. -/
theorem setSpeed_right_reduction_eval :
    (cbSetSpeed ⟨1, 50, 1000, 1, 1, 1, 2, 3⟩ (π / 30) (π / 30)).2 = 2 ∧
    truncTowardZero (π / 30 * (3 : ℝ) * 60 / (2 * π)) = 3 ∧
    (2 : ℤ) ≠ 3 := by
  have hπ : (π : ℝ) ≠ 0 := Real.pi_ne_zero
  have e1 : π / 30 * (2 : ℝ) * 60 / (2 * π) = 2 := by
    field_simp
    ring
  have e2 : π / 30 * (3 : ℝ) * 60 / (2 * π) = 3 := by
    field_simp
    ring
  have t2 : truncTowardZero (2 : ℝ) = 2 := by
    rw [truncTowardZero, if_pos (by norm_num : (0:ℝ) ≤ 2)]
    rw [show (2 : ℝ) = ((2 : ℤ) : ℝ) by norm_num, Int.floor_intCast]
  have t3 : truncTowardZero (3 : ℝ) = 3 := by
    rw [truncTowardZero, if_pos (by norm_num : (0:ℝ) ≤ 3)]
    rw [show (3 : ℝ) = ((3 : ℤ) : ℝ) by norm_num, Int.floor_intCast]
  refine ⟨?_, ?_, by decide⟩
  · show truncTowardZero (π / 30 * (2 : ℝ) * 60 / (2 * π)) = 2
    rw [e1, t2]
  · rw [e2, t3]

/-- C5: if no velocity command arrives within `watchdog_receive_ms`, the
watchdog issues a 0 rpm command to both wheels; any command arrival restarts
the watchdog timer, so the pending deadline becomes `now + timeout` and no
expiry can occur strictly before that new deadline. -/
theorem watchdog_zero_and_reschedule :
    cbWatchdog false = [(Wheel.left, 0), (Wheel.right, 0)] ∧
    (∀ wt now : ℕ, watchdogRestart wt now = now + wt) ∧
    (∀ wt now t : ℕ, t < now + wt → ¬ watchdogExpired (watchdogRestart wt now) t) := by
  refine ⟨rfl, fun _ _ => rfl, ?_⟩
  intro wt now t ht hexp
  simp only [watchdogExpired, watchdogRestart] at hexp
  omega

/-- Witness for C5: a command arriving at time 5 with a 1000 ms timeout
prevents an expiry at time 900. -/
theorem watchdog_zero_and_reschedule_witness :
    900 < 5 + 1000 ∧ ¬ watchdogExpired (watchdogRestart 1000 5) 900 :=
  ⟨by decide, watchdog_zero_and_reschedule.2.2 1000 5 900 (by decide)⟩

/-- C6: in a safety poll cycle where both STO reads succeed with values `a`
(left) and `b` (right), the published `safe_torque_off` is `a || b`, and the
inconsistency report fires exactly when `a ≠ b`; the message fields are
produced regardless (the mismatch only logs, it does not block the cycle). -/
theorem safety_sto_or_inconsistency (res_l0 res_r0 a b : Bool) (rd : SafetyReads)
    (hl : rd.sto_l = some a) (hr : rd.sto_r = some b) :
    (cbTimerSafety res_l0 res_r0 rd).1.safe_torque_off = (a || b) ∧
    (cbTimerSafety res_l0 res_r0 rd).2 = (a != b) := by
  simp [cbTimerSafety, hl, hr]

/-- Witness for C6: `left = true`, `right = false` gives combined `true` and
a logged inconsistency. -/
theorem safety_sto_or_inconsistency_witness :
    (SafetyReads.mk (some true) (some false) (some false) (some false)
        (some false) (some false)).sto_l = some true ∧
    (SafetyReads.mk (some true) (some false) (some false) (some false)
        (some false) (some false)).sto_r = some false ∧
    (cbTimerSafety false false
        (SafetyReads.mk (some true) (some false) (some false) (some false)
          (some false) (some false))).1.safe_torque_off = (true || false) ∧
    (cbTimerSafety false false
        (SafetyReads.mk (some true) (some false) (some false) (some false)
          (some false) (some false))).2 = (true != false) :=
  ⟨rfl, rfl,
    (safety_sto_or_inconsistency false false true false _ rfl rfl).1,
    (safety_sto_or_inconsistency false false true false _ rfl rfl).2⟩

/-- C7 (code bug): the claim says a field whose reads fail on both wheels is
published as `false` for that cycle.  The code's out-variables `res_l`,
`res_r` are uninitialized locals reused across the three reads, so after the
STO reads succeed with `true`/`true` and ALL four SDI and SLS reads fail, the
cycle publishes `safe_direction_indication_pos = true` and
`safe_limit_speed = true` (the stale STO values), not `false`. -/
theorem safety_double_failure_eval :
    cbTimerSafety false false
        (SafetyReads.mk (some true) (some true) none none none none)
      = (SafetyMsg.mk true true true, false) ∧
    (SafetyMsg.mk true true true).safe_direction_indication_pos ≠ false := by
  decide

/-- C8 (code bug): with the parameter `pub_freq_hz = 0` (any value `≤ 0`),
the constructor takes the error branch whose log promises a fallback to
50 Hz, but `m_pub_freq_hz` keeps the invalid value 0, so the odometry timer
period `1.0 / m_pub_freq_hz` is not `1 / 50`. -/
theorem pub_freq_invalid_kept_eval :
    (initPubFreq (some 0)).1 = 0 ∧
    (initPubFreq (some 0)).2 = true ∧
    (initPubFreq (some 0)).1 ≠ 50 := by
  decide

/-- C3: an odometry step with equal wheel deltas `d` has `dTheta = 0`, leaves
`theta` unchanged (for any heading satisfying the `(-π, π]` invariant) and
translates the pose by exactly `d` along the pre-update heading; a step with
opposite deltas (`dLeft = d`, `dRight = -d`) has zero centre displacement,
leaves `x` and `y` unchanged and has
`dTheta = refWheelSign · (-2d) / baseline`. -/
theorem odom_step_special_deltas :
    (∀ (cfg : Config) (s : OdomState) (l r : ℤ) (d : ℝ),
        dDistLeft s l = d → dDistRight s r = d → s.theta ∈ Set.Ioc (-π) π →
        dTheta cfg s l r = 0 ∧
        (cbTimerOdom cfg s l r).1.theta = s.theta ∧
        (cbTimerOdom cfg s l r).1.x = s.x + d * Real.cos s.theta ∧
        (cbTimerOdom cfg s l r).1.y = s.y + d * Real.sin s.theta) ∧
    (∀ (cfg : Config) (s : OdomState) (l r : ℤ) (d : ℝ),
        dDistLeft s l = d → dDistRight s r = -d →
        dDistCenter s l r = 0 ∧
        (cbTimerOdom cfg s l r).1.x = s.x ∧
        (cbTimerOdom cfg s l r).1.y = s.y ∧
        dTheta cfg s l r = (cfg.ref_wheel : ℝ) * (-(2 * d)) / cfg.baseline_m) := by
  constructor
  · intro cfg s l r d hl hr hθ
    have hth : dTheta cfg s l r = 0 := by
      simp [dTheta, hl, hr]
    have hc : dDistCenter s l r = d := by
      rw [dDistCenter, hl, hr]
      ring
    refine ⟨hth, ?_, ?_, ?_⟩
    · rw [cbTimerOdom_theta, hth, add_zero, boundAngle_eq_of_mem hθ]
    · rw [cbTimerOdom_x, hc]
    · rw [cbTimerOdom_y, hc]
  · intro cfg s l r d hl hr
    have hc : dDistCenter s l r = 0 := by
      rw [dDistCenter, hl, hr]
      ring
    refine ⟨hc, ?_, ?_, ?_⟩
    · rw [cbTimerOdom_x, hc]
      ring
    · rw [cbTimerOdom_y, hc]
      ring
    · rw [dTheta, hl, hr]
      ring

/-- Witness for C3: both parts instantiated at baseline 1 m, `refWheelSign`
`+1`, pose `(0, 0, 0)`, previous samples 0: equal readings of 100 mm
(`d = 1/10` m), and opposite readings `100` / `-100` mm. -/
theorem odom_step_special_deltas_witness :
    (dDistLeft ⟨0, 0, 0, 0, 0⟩ 100 = 1 / 10 ∧
     dDistRight ⟨0, 0, 0, 0, 0⟩ 100 = 1 / 10 ∧
     (⟨0, 0, 0, 0, 0⟩ : OdomState).theta ∈ Set.Ioc (-π) π ∧
     dTheta ⟨1, 50, 1000, 1, 1, 1, 1, 1⟩ ⟨0, 0, 0, 0, 0⟩ 100 100 = 0) ∧
    (dDistRight ⟨0, 0, 0, 0, 0⟩ (-100) = -(1 / 10) ∧
     dDistCenter ⟨0, 0, 0, 0, 0⟩ 100 (-100) = 0) := by
  have h1 : dDistLeft ⟨0, 0, 0, 0, 0⟩ 100 = 1 / 10 := by
    norm_num [dDistLeft]
  have h2 : dDistRight ⟨0, 0, 0, 0, 0⟩ 100 = 1 / 10 := by
    norm_num [dDistRight]
  have h3 : (⟨0, 0, 0, 0, 0⟩ : OdomState).theta ∈ Set.Ioc (-π) π :=
    ⟨neg_lt_zero.mpr Real.pi_pos, Real.pi_pos.le⟩
  have h4 : dDistRight ⟨0, 0, 0, 0, 0⟩ (-100) = -(1 / 10) := by
    norm_num [dDistRight]
  exact ⟨⟨h1, h2, h3,
           (odom_step_special_deltas.1 ⟨1, 50, 1000, 1, 1, 1, 1, 1⟩ ⟨0, 0, 0, 0, 0⟩
             100 100 (1 / 10) h1 h2 h3).1⟩,
         ⟨h4,
           (odom_step_special_deltas.2 ⟨1, 50, 1000, 1, 1, 1, 1, 1⟩ ⟨0, 0, 0, 0, 0⟩
             100 (-100) (1 / 10) h1 h4).1⟩⟩

/-- C4: after every odometry step of any nonempty sequence of encoder
readings, the stored heading lies in `(-π, π]` (spec-modelled `boundAngle`
wrap applied at line 265 on every step). -/
theorem odomRun_theta_in_Ioc (cfg : Config) (s : OdomState) (inputs : List (ℤ × ℤ))
    (h : inputs ≠ []) : (odomRun cfg s inputs).theta ∈ Set.Ioc (-π) π := by
  induction inputs generalizing s with
  | nil => exact absurd rfl h
  | cons p rest ih =>
    obtain ⟨l, r⟩ := p
    cases rest with
    | nil =>
      simp only [odomRun]
      rw [cbTimerOdom_theta]
      exact boundAngle_mem_Ioc _
    | cons q tail =>
      simp only [odomRun]
      exact ih _ (by simp)

/-- Witness for C4: a two-step run from heading 0 lands in `(-π, π]`. -/
theorem odomRun_theta_in_Ioc_witness :
    ([((5 : ℤ), (7 : ℤ)), (9, 2)] ≠ ([] : List (ℤ × ℤ))) ∧
    (odomRun ⟨1, 50, 1000, 1, 1, 1, 1, 1⟩ ⟨0, 0, 0, 0, 0⟩
        [(5, 7), (9, 2)]).theta ∈ Set.Ioc (-π) π :=
  ⟨by simp, odomRun_theta_in_Ioc _ _ _ (by simp)⟩

/-- C9 counterexample: the command-to-rpm conversion of `cbCmdVel` is not
additive, hence not linear.  With baseline 1 m, both diameters 2 m and both
reductions 1, the command `{linear = π/50, angular = 0}` yields 0 rpm but its
double `{linear = π/25, angular = 0}` yields 1 rpm ≠ 0 + 0 (the pre-rounding
values are 3/5 and 6/5 rpm, truncated to 0 and 1). -/
theorem cmdVel_not_additive_counterexample :
    (π / 25 : ℝ) = π / 50 + π / 50 ∧
    (cbCmdVel ⟨1, 50, 1000, 1, 2, 2, 1, 1⟩ (π / 50) 0).1 = 0 ∧
    (cbCmdVel ⟨1, 50, 1000, 1, 2, 2, 1, 1⟩ (π / 25) 0).1 = 1 ∧
    (1 : ℤ) ≠ 0 + 0 := by
  have hπ : (π : ℝ) ≠ 0 := Real.pi_ne_zero
  have e1 : (2 * (π / 50) - 0 * (1 : ℝ)) / 2 * 1 * 60 / (2 * π) = 3 / 5 := by
    field_simp
    ring
  have e2 : (2 * (π / 25) - 0 * (1 : ℝ)) / 2 * 1 * 60 / (2 * π) = 6 / 5 := by
    field_simp
    ring
  refine ⟨by ring, ?_, ?_, by decide⟩
  · show truncTowardZero ((2 * (π / 50) - 0 * (1 : ℝ)) / 2 * 1 * 60 / (2 * π)) = 0
    rw [e1, truncTowardZero, if_pos (by norm_num : (0:ℝ) ≤ 3 / 5)]
    rw [Int.floor_eq_zero_iff]
    constructor <;> norm_num
  · show truncTowardZero ((2 * (π / 25) - 0 * (1 : ℝ)) / 2 * 1 * 60 / (2 * π)) = 1
    rw [e2, truncTowardZero, if_pos (by norm_num : (0:ℝ) ≤ 6 / 5)]
    rw [Int.floor_eq_iff]
    constructor <;> norm_num

/-- C9 amended: the **real-valued** command-to-wheel-speed map (lines
339-344 before the `static_cast`) is linear in the command `{linear,
angular}`, and the zero command yields an integer rpm setpoint of 0 on both
wheels for every configuration; the final integer conversion is that linear
map followed by truncation toward zero (which breaks linearity, see the
counterexample). -/
theorem cmdVel_linear_real_and_zero :
    (∀ (cfg : Config) (a b l1 w1 l2 w2 : ℝ),
        cmdVelReal cfg (a * l1 + b * l2) (a * w1 + b * w2)
          = (a * (cmdVelReal cfg l1 w1).1 + b * (cmdVelReal cfg l2 w2).1,
             a * (cmdVelReal cfg l1 w1).2 + b * (cmdVelReal cfg l2 w2).2)) ∧
    (∀ cfg : Config, cbCmdVel cfg 0 0 = (0, 0)) ∧
    (∀ (cfg : Config) (lin ang : ℝ),
        cbCmdVel cfg lin ang
          = (truncTowardZero (cmdVelReal cfg lin ang).1,
             truncTowardZero (cmdVelReal cfg lin ang).2)) := by
  refine ⟨?_, ?_, fun _ _ _ => rfl⟩
  · intro cfg a b l1 w1 l2 w2
    simp only [cmdVelReal, Prod.mk.injEq]
    constructor <;> ring
  · intro cfg
    have h0l : (2 * (0 : ℝ) - 0 * cfg.baseline_m) / cfg.left_wheel_diameter_m
        * cfg.l_motor_reduction * 60 / (2 * π) = 0 := by
      simp
    have h0r : (2 * (0 : ℝ) + 0 * cfg.baseline_m) / cfg.right_wheel_diameter_m
        * cfg.r_motor_reduction * 60 / (2 * π) = 0 := by
      simp
    simp only [cbCmdVel, h0l, h0r]
    rw [truncTowardZero, if_pos le_rfl, Int.floor_zero]

/-- C10: `setSpeeds` commands the left wheel first; when that call fails it
returns at once, so the right wheel receives no setpoint (it keeps its
previous one), and the right wheel is commanded exactly when the left call
succeeded. -/
theorem setSpeeds_left_failure_skips_right (ls rs : ℤ) :
    setSpeeds true ls rs = [(Wheel.left, ls)] ∧
    setSpeeds false ls rs = [(Wheel.left, ls), (Wheel.right, rs)] := by
  exact ⟨rfl, rfl⟩

end DiffDrive
